import Mathlib

/-!
# The C binding `LLVMLinkModules` (ext/linker/linker.cpp)

A shallow embedding of the single exported function of the linker binding.

The function runs against three things it does not own:

* the LLVM library (`Linker::LinkModules`, `unwrap`), taken here as a
  parameter `Linker W` acting on an arbitrary library state `W`;
* the caller's memory, where `OutMessages` points to a `char *` cell;
* the C heap, from which `strdup` takes a block.

Memory is block structured: a `char *` is the number of a heap block
(`0` is the null pointer). The heap has a finite number of bytes left to give
out: an allocation that fits takes a fresh block, one that does not fit fails
and `strdup` returns the null pointer, which the binding stores unchecked.
The inner working of the LLVM linker is outside the model.

Every call of the library linker is recorded in a trace, so that what the
binding passes on can be stated.
-/

namespace LinkerBinding

/-! ## Data -/

/-- A C `char`, as the value of its byte. -/
abbrev CChar := Fin 256

/-- The content of a `std::string`: any sequence of bytes, NUL included. -/
abbrev StdString := List CChar

/-- The C handle `LLVMModuleRef`: an address whose pointee the binding never inspects. -/
structure LLVMModuleRef where
  addr : Nat
deriving DecidableEq, Repr

/-- A C++ `Module *`, as the library sees it. -/
structure ModulePtr where
  addr : Nat
deriving DecidableEq, Repr

/-- The cast `unwrap` of the LLVM headers (`reinterpret_cast<Module*>`): the address is kept. -/
def unwrap (P : LLVMModuleRef) : ModulePtr := ⟨P.addr⟩

/-- Modelled from the spec: the enumeration `LLVMLinkerMode` is declared in `linker.h`, which is
not among the sources. The spec describes it as an enumerator defined and interpreted entirely by
the library, so it is carried as the integer value handed to the `unsigned Mode` parameter. -/
abbrev LLVMLinkerMode := Nat

/-- The C type `LLVMBool` (an `int`). -/
abbrev LLVMBool := Int

/-! ## The library linker -/

/-- What one call of `Linker::LinkModules` leaves behind. -/
structure LinkResult (W : Type) where
  /-- the state of the library (modules included) after the call -/
  world : W
  /-- the C++ `bool` returned: `true` reports an error -/
  failed : Bool
  /-- the content of `*ErrorMsg` after the call; meaningful only if a buffer was passed -/
  errorMsg : StdString

/-- The library: `LinkModules w Dest Src Mode ErrorMsg`, where `ErrorMsg` is `none` for a null
`std::string *` and `some s` for a pointer to a string whose content is `s`. -/
structure Linker (W : Type) where
  LinkModules : W → ModulePtr → ModulePtr → Nat → Option StdString → LinkResult W

/-- One recorded call of `Linker::LinkModules`, arguments in the order of the parameters. -/
structure LinkCall where
  Dest : ModulePtr
  Src : ModulePtr
  Mode : Nat
  ErrorMsg : Option StdString
deriving DecidableEq, Repr

/-! ## Memory -/

/-- Caller memory and C heap. `cells` are the caller's `char *` variables (address and value, the
most recent store first); `heap` holds the allocated blocks, block `p` being `heap[p - 1]`;
`room` is the number of bytes the allocator can still give out. -/
structure Memory where
  cells : List (Nat × Nat)
  heap : List (List CChar)
  room : Nat
deriving DecidableEq, Repr

/-- Read the `char *` cell at address `a`. -/
def Memory.load (m : Memory) (a : Nat) : Option Nat := m.cells.lookup a

/-- The assignment `*a = v` on a `char *` cell. -/
def Memory.store (m : Memory) (a v : Nat) : Memory := { m with cells := (a, v) :: m.cells }

/-- The heap block a `char *` refers to; the null pointer refers to none. -/
def Memory.block (m : Memory) (p : Nat) : Option (List CChar) :=
  if p = 0 then none else m.heap[p - 1]?

/-- The C function `strlen` on a character array: the number of bytes before the first NUL. -/
def strlen : List CChar → Nat
  | [] => 0
  | c :: cs => if c = 0 then 0 else strlen cs + 1

/-- The method `std::string::c_str`: the content followed by a terminating NUL. -/
def c_str (s : StdString) : List CChar := s ++ [0]

/-- The C function `strdup`: it asks the allocator for `strlen s + 1` bytes. If the heap has that
much room, a fresh block receives the bytes of `s` up to its first NUL and a terminator, and the
pointer to the block is returned; if not, the null pointer is returned and memory is unchanged. -/
def strdup (m : Memory) (s : List CChar) : Nat × Memory :=
  if strlen s + 1 ≤ m.room then
    (m.heap.length + 1,
      { m with heap := m.heap ++ [s.take (strlen s) ++ [0]], room := m.room - (strlen s + 1) })
  else
    (0, m)

/-- The C string found behind a `char *`: the bytes of its block before the first NUL. -/
def Memory.cstring (m : Memory) (p : Nat) : Option StdString :=
  (m.block p).map fun b => b.take (strlen b)

/-- The string a caller finds through `OutMessages`: follow the cell, then read the C string. -/
def Memory.message (m : Memory) (OutMessages : Nat) : Option StdString :=
  (m.load OutMessages).bind m.cstring

/-! ## The binding -/

/-- Everything a call can touch: the library state, the memory, and the trace of linker calls. -/
structure State (W : Type) where
  world : W
  mem : Memory
  calls : List LinkCall

/-- The exported function, statement by statement: `Messages` starts as the empty string;
`Result` is what `Linker::LinkModules(unwrap(Dest), unwrap(Src), Mode, OutMessages? &Messages : 0)`
returns, converted to `LLVMBool`; if `OutMessages` is non-null, `*OutMessages` is assigned
`strdup(Messages.c_str())`, null included; `Result` is returned. `OutMessages` is the address of
the caller's `char *` cell, `0` when null. -/
def LLVMLinkModules {W : Type} (L : Linker W) (Dest Src : LLVMModuleRef) (Mode : LLVMLinkerMode)
    (OutMessages : Nat) (st : State W) : LLVMBool × State W :=
  let Messages : StdString := []
  let ErrorMsg : Option StdString := if OutMessages ≠ 0 then some Messages else none
  let r := L.LinkModules st.world (unwrap Dest) (unwrap Src) Mode ErrorMsg
  let Messages : StdString := if OutMessages ≠ 0 then r.errorMsg else Messages
  let Result : LLVMBool := if r.failed then 1 else 0
  let calls := st.calls ++ [⟨unwrap Dest, unwrap Src, Mode, ErrorMsg⟩]
  if OutMessages ≠ 0 then
    let a := strdup st.mem (c_str Messages)
    (Result, { world := r.world, mem := a.2.store OutMessages a.1, calls := calls })
  else
    (Result, { world := r.world, mem := st.mem, calls := calls })

/-- The buffer argument of the one linker call: the address of the empty `Messages` when
`OutMessages` is non-null, the null pointer otherwise. -/
def sink (OutMessages : Nat) : Option StdString :=
  if OutMessages ≠ 0 then some [] else none

/-- The outcome of the linker call the binding makes from state `st`. -/
def linked {W : Type} (L : Linker W) (Dest Src : LLVMModuleRef) (Mode : LLVMLinkerMode)
    (OutMessages : Nat) (st : State W) : LinkResult W :=
  L.LinkModules st.world (unwrap Dest) (unwrap Src) Mode (sink OutMessages)

/-- A diagnostic text cut at its first NUL character. -/
def cutAtNul : StdString → StdString
  | [] => []
  | c :: cs => if c = 0 then [] else c :: cutAtNul cs

/-! ## Sample libraries -/

/-- A library whose linker fails or not as told and assigns `text` to the buffer it is given. -/
def sayLinker (failed : Bool) (text : StdString) : Linker Unit where
  LinkModules := fun w _ _ _ _ => ⟨w, failed, text⟩

/-- A library whose linker fails exactly when the source is the null module, and assigns `text` to
its buffer only then. -/
def pickyLinker (text : StdString) : Linker Unit where
  LinkModules := fun w _ Src _ e =>
    if Src.addr = 0 then ⟨w, true, text⟩ else ⟨w, false, e.getD []⟩

/-- A caller state: the `char *` cell at address 8 holds `v`, the heap holds the blocks `heap` and
has `room` bytes left. -/
def callerState (v : Nat) (heap : List (List CChar)) (room : Nat) : State Unit :=
  { world := (), mem := { cells := [(8, v)], heap := heap, room := room }, calls := [] }

/-- The contract of `Linker::LinkModules` on its buffer (LLVM assigns `*ErrorMsg` on its error
path only): a call that reports success leaves the buffer it was passed as it was. -/
def Linker.SilentOnSuccess {W : Type} (L : Linker W) : Prop :=
  ∀ (w : W) (Dest Src : ModulePtr) (Mode : Nat) (buf : StdString),
    (L.LinkModules w Dest Src Mode (some buf)).failed = false →
      (L.LinkModules w Dest Src Mode (some buf)).errorMsg = buf

/-! ## Lemmas on C strings -/

theorem strlen_eq_length_cutAtNul (s : List CChar) : strlen s = (cutAtNul s).length := by
  induction s with
  | nil => rfl
  | cons c cs ih =>
    by_cases h : c = 0
    · simp [strlen, cutAtNul, h]
    · simp [strlen, cutAtNul, h, ih]

theorem take_strlen (s : List CChar) : s.take (strlen s) = cutAtNul s := by
  induction s with
  | nil => rfl
  | cons c cs ih =>
    by_cases h : c = 0
    · simp [strlen, cutAtNul, h]
    · simp [strlen, cutAtNul, h, ih]

theorem zero_not_mem_cutAtNul (s : StdString) : (0 : CChar) ∉ cutAtNul s := by
  induction s with
  | nil => simp [cutAtNul]
  | cons c cs ih =>
    by_cases h : c = 0
    · simp [cutAtNul, h]
    · simp only [cutAtNul, h, if_false, List.mem_cons, not_or]
      exact ⟨fun e => h e.symm, ih⟩

theorem cutAtNul_of_not_mem (s : StdString) (h : (0 : CChar) ∉ s) : cutAtNul s = s := by
  induction s with
  | nil => rfl
  | cons c cs ih =>
    simp only [List.mem_cons, not_or] at h
    have hc : c ≠ 0 := fun e => h.1 e.symm
    simp [cutAtNul, hc, ih h.2]

theorem cutAtNul_append_nul (s : StdString) : cutAtNul (s ++ [0]) = cutAtNul s := by
  induction s with
  | nil => simp [cutAtNul]
  | cons c cs ih =>
    by_cases h : c = 0
    · simp [cutAtNul, h]
    · simp [cutAtNul, h, ih]

theorem cutAtNul_idem (s : StdString) : cutAtNul (cutAtNul s) = cutAtNul s :=
  cutAtNul_of_not_mem _ (zero_not_mem_cutAtNul s)

theorem cutAtNul_length_le (s : StdString) : (cutAtNul s).length ≤ s.length := by
  induction s with
  | nil => simp [cutAtNul]
  | cons c cs ih =>
    by_cases h : c = 0
    · simp [cutAtNul, h]
    · simp only [cutAtNul, h, if_false, List.length_cons]
      omega

theorem cutAtNul_eq_self_iff (s : StdString) : cutAtNul s = s ↔ (0 : CChar) ∉ s :=
  ⟨fun h => h ▸ zero_not_mem_cutAtNul s, cutAtNul_of_not_mem s⟩

/-! ## Lemmas on memory -/

theorem strdup_of_room (m : Memory) (s : List CChar) (h : (cutAtNul s).length + 1 ≤ m.room) :
    strdup m s = (m.heap.length + 1,
      { m with heap := m.heap ++ [cutAtNul s ++ [0]],
               room := m.room - ((cutAtNul s).length + 1) }) := by
  unfold strdup
  rw [take_strlen, strlen_eq_length_cutAtNul, if_pos h]

theorem strdup_of_no_room (m : Memory) (s : List CChar)
    (h : ¬ (cutAtNul s).length + 1 ≤ m.room) : strdup m s = (0, m) := by
  unfold strdup
  rw [strlen_eq_length_cutAtNul, if_neg h]

theorem block_append_fresh (cells : List (Nat × Nat)) (heap : List (List CChar)) (room : Nat)
    (b : List CChar) :
    Memory.block { cells := cells, heap := heap ++ [b], room := room } (heap.length + 1) =
      some b := by
  simp [Memory.block]

theorem block_append_old (cells cells2 : List (Nat × Nat)) (heap : List (List CChar))
    (room room2 : Nat) (b c : List CChar) (q : Nat)
    (h : Memory.block { cells := cells, heap := heap, room := room } q = some c) :
    Memory.block { cells := cells2, heap := heap ++ [b], room := room2 } q = some c := by
  unfold Memory.block at h ⊢
  by_cases hq : q = 0
  · simp [hq] at h
  · simp only [hq, if_false] at h ⊢
    have hlt : q - 1 < heap.length := by
      rcases List.getElem?_eq_some_iff.mp h with ⟨hl, _⟩
      exact hl
    rw [List.getElem?_append_left hlt]
    exact h

theorem block_fresh_none (m : Memory) : m.block (m.heap.length + 1) = none := by
  simp [Memory.block]

theorem load_store (m : Memory) (a v : Nat) : (m.store a v).load a = some v := by
  simp [Memory.store, Memory.load, List.lookup]

/-! ## What a call leaves in memory -/

/-- With a non-null `OutMessages` and room on the heap for the message and its terminator, the
memory after the call has one more block, holding the text cut at its first NUL and a
terminator, and the cell holds the pointer to that block. -/
theorem mem_after_of_room {W : Type} (L : Linker W) (Dest Src : LLVMModuleRef)
    (Mode : LLVMLinkerMode) (OutMessages : Nat) (st : State W) (h : OutMessages ≠ 0)
    (hr : (cutAtNul (L.LinkModules st.world (unwrap Dest) (unwrap Src) Mode
      (some [])).errorMsg).length + 1 ≤ st.mem.room) :
    (LLVMLinkModules L Dest Src Mode OutMessages st).2.mem =
      { cells := (OutMessages, st.mem.heap.length + 1) :: st.mem.cells,
        heap := st.mem.heap ++ [cutAtNul (L.LinkModules st.world (unwrap Dest) (unwrap Src) Mode
          (some [])).errorMsg ++ [0]],
        room := st.mem.room - ((cutAtNul (L.LinkModules st.world (unwrap Dest) (unwrap Src) Mode
          (some [])).errorMsg).length + 1) } := by
  have hr2 : (cutAtNul (c_str (L.LinkModules st.world (unwrap Dest) (unwrap Src) Mode
      (some [])).errorMsg)).length + 1 ≤ st.mem.room := by
    rw [c_str, cutAtNul_append_nul]; exact hr
  simp only [LLVMLinkModules, h, ne_eq, not_false_eq_true, if_true]
  rw [strdup_of_room _ _ hr2]
  simp only [Memory.store, c_str, cutAtNul_append_nul]

/-- With a non-null `OutMessages` and no room on the heap, the memory after the call is the
memory before it with the null pointer stored in the cell. -/
theorem mem_after_of_no_room {W : Type} (L : Linker W) (Dest Src : LLVMModuleRef)
    (Mode : LLVMLinkerMode) (OutMessages : Nat) (st : State W) (h : OutMessages ≠ 0)
    (hr : ¬ (cutAtNul (L.LinkModules st.world (unwrap Dest) (unwrap Src) Mode
      (some [])).errorMsg).length + 1 ≤ st.mem.room) :
    (LLVMLinkModules L Dest Src Mode OutMessages st).2.mem =
      { st.mem with cells := (OutMessages, 0) :: st.mem.cells } := by
  have hr2 : ¬ (cutAtNul (c_str (L.LinkModules st.world (unwrap Dest) (unwrap Src) Mode
      (some [])).errorMsg)).length + 1 ≤ st.mem.room := by
    rw [c_str, cutAtNul_append_nul]; exact hr
  simp only [LLVMLinkModules, h, ne_eq, not_false_eq_true, if_true]
  rw [strdup_of_no_room _ _ hr2]
  simp only [Memory.store]

/-- The cell after a call with a non-null `OutMessages` and room on the heap. -/
theorem load_after_of_room {W : Type} (L : Linker W) (Dest Src : LLVMModuleRef)
    (Mode : LLVMLinkerMode) (OutMessages : Nat) (st : State W) (h : OutMessages ≠ 0)
    (hr : (cutAtNul (L.LinkModules st.world (unwrap Dest) (unwrap Src) Mode
      (some [])).errorMsg).length + 1 ≤ st.mem.room) :
    (LLVMLinkModules L Dest Src Mode OutMessages st).2.mem.load OutMessages =
      some (st.mem.heap.length + 1) := by
  rw [mem_after_of_room L Dest Src Mode OutMessages st h hr]
  simp [Memory.load, List.lookup]

/-- The cell after a call with a non-null `OutMessages` and no room on the heap. -/
theorem load_after_of_no_room {W : Type} (L : Linker W) (Dest Src : LLVMModuleRef)
    (Mode : LLVMLinkerMode) (OutMessages : Nat) (st : State W) (h : OutMessages ≠ 0)
    (hr : ¬ (cutAtNul (L.LinkModules st.world (unwrap Dest) (unwrap Src) Mode
      (some [])).errorMsg).length + 1 ≤ st.mem.room) :
    (LLVMLinkModules L Dest Src Mode OutMessages st).2.mem.load OutMessages = some 0 := by
  rw [mem_after_of_no_room L Dest Src Mode OutMessages st h hr]
  simp [Memory.load, List.lookup]

/-- The message after a call with a non-null `OutMessages` and room on the heap: the text the
linker left in the buffer, cut at its first NUL. -/
theorem message_after_of_room {W : Type} (L : Linker W) (Dest Src : LLVMModuleRef)
    (Mode : LLVMLinkerMode) (OutMessages : Nat) (st : State W) (h : OutMessages ≠ 0)
    (hr : (cutAtNul (L.LinkModules st.world (unwrap Dest) (unwrap Src) Mode
      (some [])).errorMsg).length + 1 ≤ st.mem.room) :
    (LLVMLinkModules L Dest Src Mode OutMessages st).2.mem.message OutMessages =
      some (cutAtNul (L.LinkModules st.world (unwrap Dest) (unwrap Src) Mode
        (some [])).errorMsg) := by
  rw [mem_after_of_room L Dest Src Mode OutMessages st h hr]
  simp [Memory.message, Memory.load, List.lookup, Memory.cstring, Memory.block, take_strlen,
    cutAtNul_append_nul, cutAtNul_idem]

/-- No message is found after a call with a non-null `OutMessages` and no room on the heap. -/
theorem message_after_of_no_room {W : Type} (L : Linker W) (Dest Src : LLVMModuleRef)
    (Mode : LLVMLinkerMode) (OutMessages : Nat) (st : State W) (h : OutMessages ≠ 0)
    (hr : ¬ (cutAtNul (L.LinkModules st.world (unwrap Dest) (unwrap Src) Mode
      (some [])).errorMsg).length + 1 ≤ st.mem.room) :
    (LLVMLinkModules L Dest Src Mode OutMessages st).2.mem.message OutMessages = none := by
  rw [mem_after_of_no_room L Dest Src Mode OutMessages st h hr]
  simp [Memory.message, Memory.load, List.lookup, Memory.cstring, Memory.block]

/-- A non-null pointer in the cell after the call means the allocation had room. -/
theorem room_of_load_ne_null {W : Type} (L : Linker W) (Dest Src : LLVMModuleRef)
    (Mode : LLVMLinkerMode) (OutMessages : Nat) (st : State W) (h : OutMessages ≠ 0) (p : Nat)
    (hp : (LLVMLinkModules L Dest Src Mode OutMessages st).2.mem.load OutMessages = some p)
    (hne : p ≠ 0) :
    (cutAtNul (L.LinkModules st.world (unwrap Dest) (unwrap Src) Mode
      (some [])).errorMsg).length + 1 ≤ st.mem.room := by
  by_contra hr
  rw [load_after_of_no_room L Dest Src Mode OutMessages st h hr] at hp
  exact hne (Option.some.inj hp).symm

/-- Any message found after a call with a non-null `OutMessages` is the text the linker left in
the buffer, cut at its first NUL. -/
theorem message_after_eq {W : Type} (L : Linker W) (Dest Src : LLVMModuleRef)
    (Mode : LLVMLinkerMode) (OutMessages : Nat) (st : State W) (h : OutMessages ≠ 0)
    (s : StdString)
    (hs : (LLVMLinkModules L Dest Src Mode OutMessages st).2.mem.message OutMessages = some s) :
    s = cutAtNul (L.LinkModules st.world (unwrap Dest) (unwrap Src) Mode (some [])).errorMsg := by
  by_cases hr : (cutAtNul (L.LinkModules st.world (unwrap Dest) (unwrap Src) Mode
      (some [])).errorMsg).length + 1 ≤ st.mem.room
  · rw [message_after_of_room L Dest Src Mode OutMessages st h hr] at hs
    exact (Option.some.inj hs).symm
  · rw [message_after_of_no_room L Dest Src Mode OutMessages st h hr] at hs
    cases hs

/-- The flag returned is the `bool` of the linker converted to `int`. -/
theorem flag_after {W : Type} (L : Linker W) (Dest Src : LLVMModuleRef) (Mode : LLVMLinkerMode)
    (OutMessages : Nat) (st : State W) :
    (LLVMLinkModules L Dest Src Mode OutMessages st).1 =
      if (linked L Dest Src Mode OutMessages st).failed then 1 else 0 := by
  unfold LLVMLinkModules linked sink
  by_cases h : OutMessages = 0 <;> simp [h]

theorem pickyLinker_silentOnSuccess (text : StdString) : (pickyLinker text).SilentOnSuccess := by
  intro w Dest Src Mode buf hf
  by_cases h0 : Src.addr = 0
  · simp [pickyLinker, h0] at hf
  · simp [pickyLinker, h0]

/-! ## The contract of `LLVMLinkModules` -/

/-- C1: for every destination, source, mode and output pointer (null or not), the flag returned is
non-zero if and only if the call of `Linker::LinkModules` on the unwrapped destination, the
unwrapped source and the same mode reports failure. -/
theorem LLVMLinkModules_flag_iff_linker_failed {W : Type} (L : Linker W)
    (Dest Src : LLVMModuleRef) (Mode : LLVMLinkerMode) (OutMessages : Nat) (st : State W) :
    (LLVMLinkModules L Dest Src Mode OutMessages st).1 ≠ 0 ↔
      (L.LinkModules st.world (unwrap Dest) (unwrap Src) Mode
        (if OutMessages ≠ 0 then some [] else none)).failed = true := by
  have hf := flag_after L Dest Src Mode OutMessages st
  simp only [linked, sink] at hf
  rw [hf]
  split <;> simp_all

/-- C7: every call adds exactly one call of the linker to the trace; that call has the destination
first and the source second, each at the address its handle carries, and the mode as given; it
is passed a buffer, the empty `Messages`, if and only if `OutMessages` is non-null, and a null
pointer otherwise; the library is left in the state this single call produced. -/
theorem LLVMLinkModules_calls_linker_once {W : Type} (L : Linker W)
    (Dest Src : LLVMModuleRef) (Mode : LLVMLinkerMode) (OutMessages : Nat) (st : State W) :
    ∃ c : LinkCall,
      (LLVMLinkModules L Dest Src Mode OutMessages st).2.calls = st.calls ++ [c] ∧
      c.Dest = unwrap Dest ∧ c.Dest.addr = Dest.addr ∧
      c.Src = unwrap Src ∧ c.Src.addr = Src.addr ∧
      c.Mode = Mode ∧
      (c.ErrorMsg.isSome ↔ OutMessages ≠ 0) ∧
      (OutMessages ≠ 0 → c.ErrorMsg = some []) ∧
      (OutMessages = 0 → c.ErrorMsg = none) ∧
      (LLVMLinkModules L Dest Src Mode OutMessages st).2.world =
        (L.LinkModules st.world c.Dest c.Src c.Mode c.ErrorMsg).world := by
  refine ⟨⟨unwrap Dest, unwrap Src, Mode, if OutMessages ≠ 0 then some [] else none⟩, ?_⟩
  unfold LLVMLinkModules unwrap
  by_cases h : OutMessages = 0 <;> simp [h]

/-- C4: with a null `OutMessages` the memory the caller sees (its cells and the heap) is exactly
what it was before the call, and the flag returned is the status of the linker, which was called
with a null buffer. -/
theorem LLVMLinkModules_null_out_frame {W : Type} (L : Linker W)
    (Dest Src : LLVMModuleRef) (Mode : LLVMLinkerMode) (st : State W) :
    (LLVMLinkModules L Dest Src Mode 0 st).2.mem = st.mem ∧
      (LLVMLinkModules L Dest Src Mode 0 st).1 =
        (if (L.LinkModules st.world (unwrap Dest) (unwrap Src) Mode none).failed
          then 1 else 0) := by
  simp [LLVMLinkModules]

/-- C3, counterexample: `OutMessages` is non-null, the linker fails with the text "no", and the
heap has no room left: `strdup` returns the null pointer, the call returns 1 and the cell holds
the null pointer, so no non-null pointer is stored. -/
theorem LLVMLinkModules_message_pointer_null_without_room :
    (8 : Nat) ≠ 0 ∧
    (LLVMLinkModules (sayLinker true [110, 111]) ⟨1⟩ ⟨2⟩ 0 8 (callerState 77 [] 0)).1 = 1 ∧
    (LLVMLinkModules (sayLinker true [110, 111]) ⟨1⟩ ⟨2⟩ 0 8
      (callerState 77 [] 0)).2.mem.load 8 = some 0 ∧
    ¬ ∃ p : Nat,
      (LLVMLinkModules (sayLinker true [110, 111]) ⟨1⟩ ⟨2⟩ 0 8
        (callerState 77 [] 0)).2.mem.load 8 = some p ∧ p ≠ 0 := by
  refine ⟨by decide, by decide, by decide, ?_⟩
  rintro ⟨p, hp, hne⟩
  have h0 : (LLVMLinkModules (sayLinker true [110, 111]) ⟨1⟩ ⟨2⟩ 0 8
      (callerState 77 [] 0)).2.mem.load 8 = some 0 := by decide
  rw [h0] at hp
  exact hne (Option.some.inj hp).symm

/-- C3, amended: with a non-null `OutMessages`, if the heap has room for the message and its
terminator, the cell holds after the call a pointer that is not null, that referred to no block
before the call and that now refers to a NUL-terminated block, every earlier block being intact;
if the heap has no such room, the cell holds the null pointer and the heap is unchanged. -/
theorem LLVMLinkModules_message_pointer_fresh_of_room {W : Type} (L : Linker W)
    (Dest Src : LLVMModuleRef) (Mode : LLVMLinkerMode) (OutMessages : Nat) (st : State W)
    (h : OutMessages ≠ 0) :
    ((cutAtNul (L.LinkModules st.world (unwrap Dest) (unwrap Src) Mode (some [])).errorMsg).length + 1 ≤ st.mem.room →
      ∃ p : Nat,
        (LLVMLinkModules L Dest Src Mode OutMessages st).2.mem.load OutMessages = some p ∧
        p ≠ 0 ∧
        st.mem.block p = none ∧
        (∃ s : StdString, (0 : CChar) ∉ s ∧
          (LLVMLinkModules L Dest Src Mode OutMessages st).2.mem.block p = some (s ++ [0])) ∧
        ∀ (q : Nat) (b : List CChar), st.mem.block q = some b →
          (LLVMLinkModules L Dest Src Mode OutMessages st).2.mem.block q = some b) ∧
    (¬ (cutAtNul (L.LinkModules st.world (unwrap Dest) (unwrap Src) Mode (some [])).errorMsg).length + 1 ≤ st.mem.room →
      (LLVMLinkModules L Dest Src Mode OutMessages st).2.mem.load OutMessages = some 0 ∧
      (LLVMLinkModules L Dest Src Mode OutMessages st).2.mem.heap = st.mem.heap) := by
  constructor
  · intro hr
    refine ⟨st.mem.heap.length + 1, load_after_of_room L Dest Src Mode OutMessages st h hr,
      by omega, block_fresh_none st.mem, ?_, ?_⟩
    · refine ⟨cutAtNul (L.LinkModules st.world (unwrap Dest) (unwrap Src) Mode (some [])).errorMsg, zero_not_mem_cutAtNul _, ?_⟩
      rw [mem_after_of_room L Dest Src Mode OutMessages st h hr]
      exact block_append_fresh _ _ _ _
    · intro q b hq
      rw [mem_after_of_room L Dest Src Mode OutMessages st h hr]
      exact block_append_old st.mem.cells _ st.mem.heap st.mem.room _ _ b q hq
  · intro hr
    refine ⟨load_after_of_no_room L Dest Src Mode OutMessages st h hr, ?_⟩
    rw [mem_after_of_no_room L Dest Src Mode OutMessages st h hr]

/-- Witness for C3 amended: a failing linker that says "no", the cell at address 8 holding a stale
pointer, one block on the heap and three bytes of room: the cell receives the pointer 2 to the
new block "no", NUL. -/
theorem LLVMLinkModules_message_pointer_fresh_of_room_witness :
    ((8 : Nat) ≠ 0 ∧
      (cutAtNul ((sayLinker true [110, 111]).LinkModules (callerState 77 [[120, 0]] 3).world
        (unwrap ⟨1⟩) (unwrap ⟨2⟩) 0 (some [])).errorMsg).length + 1 ≤
        (callerState 77 [[120, 0]] 3).mem.room ∧
      (LLVMLinkModules (sayLinker true [110, 111]) ⟨1⟩ ⟨2⟩ 0 8
        (callerState 77 [[120, 0]] 3)).2.mem.load 8 = some 2 ∧
      (LLVMLinkModules (sayLinker true [110, 111]) ⟨1⟩ ⟨2⟩ 0 8
        (callerState 77 [[120, 0]] 3)).2.mem.heap = [[120, 0], [110, 111, 0]]) ∧
    ∃ p : Nat,
      (LLVMLinkModules (sayLinker true [110, 111]) ⟨1⟩ ⟨2⟩ 0 8
        (callerState 77 [[120, 0]] 3)).2.mem.load 8 = some p ∧
      p ≠ 0 ∧
      (callerState 77 [[120, 0]] 3).mem.block p = none ∧
      (∃ s : StdString, (0 : CChar) ∉ s ∧
        (LLVMLinkModules (sayLinker true [110, 111]) ⟨1⟩ ⟨2⟩ 0 8
          (callerState 77 [[120, 0]] 3)).2.mem.block p = some (s ++ [0])) ∧
      ∀ (q : Nat) (b : List CChar), (callerState 77 [[120, 0]] 3).mem.block q = some b →
        (LLVMLinkModules (sayLinker true [110, 111]) ⟨1⟩ ⟨2⟩ 0 8
          (callerState 77 [[120, 0]] 3)).2.mem.block q = some b :=
  ⟨by decide, (LLVMLinkModules_message_pointer_fresh_of_room (sayLinker true [110, 111]) ⟨1⟩ ⟨2⟩
    0 8 (callerState 77 [[120, 0]] 3) (by decide)).1 (by decide)⟩

/-- C8: with a non-null `OutMessages`, the string written, which is there whenever the pointer
stored is non-null, is the text the linker left in the buffer cut at its first NUL; it is the
whole text exactly when the text has no NUL, and it is never longer than the text. The pointer
stored is non-null whenever the heap has room for the cut text and its terminator. -/
theorem LLVMLinkModules_written_message_cut_at_nul {W : Type} (L : Linker W)
    (Dest Src : LLVMModuleRef) (Mode : LLVMLinkerMode) (OutMessages : Nat) (st : State W)
    (h : OutMessages ≠ 0) :
    (∀ p : Nat,
      (LLVMLinkModules L Dest Src Mode OutMessages st).2.mem.load OutMessages = some p → p ≠ 0 →
      ∃ s : StdString,
        (LLVMLinkModules L Dest Src Mode OutMessages st).2.mem.message OutMessages = some s ∧
        s = cutAtNul (L.LinkModules st.world (unwrap Dest) (unwrap Src) Mode (some [])).errorMsg ∧
        (s = (L.LinkModules st.world (unwrap Dest) (unwrap Src) Mode (some [])).errorMsg ↔ (0 : CChar) ∉ (L.LinkModules st.world (unwrap Dest) (unwrap Src) Mode (some [])).errorMsg) ∧
        s.length ≤ (L.LinkModules st.world (unwrap Dest) (unwrap Src) Mode (some [])).errorMsg.length) ∧
    ((cutAtNul (L.LinkModules st.world (unwrap Dest) (unwrap Src) Mode (some [])).errorMsg).length + 1 ≤ st.mem.room →
      ∃ p : Nat,
        (LLVMLinkModules L Dest Src Mode OutMessages st).2.mem.load OutMessages = some p ∧
        p ≠ 0) := by
  constructor
  · intro p hp hne
    have hr := room_of_load_ne_null L Dest Src Mode OutMessages st h p hp hne
    exact ⟨_, message_after_of_room L Dest Src Mode OutMessages st h hr, rfl,
      cutAtNul_eq_self_iff _, cutAtNul_length_le _⟩
  · intro hr
    exact ⟨_, load_after_of_room L Dest Src Mode OutMessages st h hr, by omega⟩

/-- Witness for C8: the linker leaves the bytes "a", NUL, "b"; with two bytes of room the cell
receives the pointer 1 and the caller finds "a". -/
theorem LLVMLinkModules_written_message_cut_at_nul_witness :
    ((8 : Nat) ≠ 0 ∧
      (LLVMLinkModules (sayLinker true [97, 0, 98]) ⟨1⟩ ⟨2⟩ 0 8
        (callerState 0 [] 2)).2.mem.load 8 = some 1 ∧
      (LLVMLinkModules (sayLinker true [97, 0, 98]) ⟨1⟩ ⟨2⟩ 0 8
        (callerState 0 [] 2)).2.mem.message 8 = some [97]) ∧
    ∃ s : StdString,
      (LLVMLinkModules (sayLinker true [97, 0, 98]) ⟨1⟩ ⟨2⟩ 0 8
        (callerState 0 [] 2)).2.mem.message 8 = some s ∧
      s = cutAtNul ((sayLinker true [97, 0, 98]).LinkModules (callerState 0 [] 2).world
        (unwrap ⟨1⟩) (unwrap ⟨2⟩) 0 (some [])).errorMsg ∧
      (s = ((sayLinker true [97, 0, 98]).LinkModules (callerState 0 [] 2).world
          (unwrap ⟨1⟩) (unwrap ⟨2⟩) 0 (some [])).errorMsg ↔
        (0 : CChar) ∉ ((sayLinker true [97, 0, 98]).LinkModules (callerState 0 [] 2).world
          (unwrap ⟨1⟩) (unwrap ⟨2⟩) 0 (some [])).errorMsg) ∧
      s.length ≤ ((sayLinker true [97, 0, 98]).LinkModules (callerState 0 [] 2).world
        (unwrap ⟨1⟩) (unwrap ⟨2⟩) 0 (some [])).errorMsg.length :=
  ⟨by decide, (LLVMLinkModules_written_message_cut_at_nul (sayLinker true [97, 0, 98]) ⟨1⟩ ⟨2⟩
    0 8 (callerState 0 [] 2) (by decide)).1 1 (by decide) (by decide)⟩

/-- C9: the buffer handed to the linker is empty, and what the cell behind `OutMessages` held
before the call plays no part. For two calls with a non-null `OutMessages` in which the linker
gives the same status and the same text: the flags are equal; any two strings written are equal;
when the two heaps are the same (blocks and room), whatever the cells held, the same pointer is
stored and the same message is found. When the linker leaves the buffer empty, any string
written is empty, and one is written as soon as the heap has one byte of room. -/
theorem LLVMLinkModules_prior_cell_irrelevant {W : Type} (L : Linker W)
    (Dest Src : LLVMModuleRef) (Mode : LLVMLinkerMode) (OutMessages : Nat) (st1 st2 : State W)
    (h : OutMessages ≠ 0)
    (hf : (L.LinkModules st1.world (unwrap Dest) (unwrap Src) Mode (some [])).failed =
      (L.LinkModules st2.world (unwrap Dest) (unwrap Src) Mode (some [])).failed)
    (ht : (L.LinkModules st1.world (unwrap Dest) (unwrap Src) Mode (some [])).errorMsg =
      (L.LinkModules st2.world (unwrap Dest) (unwrap Src) Mode (some [])).errorMsg) :
    (LLVMLinkModules L Dest Src Mode OutMessages st1).1 =
        (LLVMLinkModules L Dest Src Mode OutMessages st2).1 ∧
    (∀ s1 s2 : StdString,
      (LLVMLinkModules L Dest Src Mode OutMessages st1).2.mem.message OutMessages = some s1 →
      (LLVMLinkModules L Dest Src Mode OutMessages st2).2.mem.message OutMessages = some s2 →
      s1 = s2) ∧
    (st1.mem.heap = st2.mem.heap → st1.mem.room = st2.mem.room →
      (LLVMLinkModules L Dest Src Mode OutMessages st1).2.mem.load OutMessages =
        (LLVMLinkModules L Dest Src Mode OutMessages st2).2.mem.load OutMessages ∧
      (LLVMLinkModules L Dest Src Mode OutMessages st1).2.mem.message OutMessages =
        (LLVMLinkModules L Dest Src Mode OutMessages st2).2.mem.message OutMessages) ∧
    ((LLVMLinkModules L Dest Src Mode OutMessages st1).2.calls.getLast?).map LinkCall.ErrorMsg =
      some (some []) ∧
    ((L.LinkModules st1.world (unwrap Dest) (unwrap Src) Mode (some [])).errorMsg = [] →
      (∀ s : StdString,
        (LLVMLinkModules L Dest Src Mode OutMessages st1).2.mem.message OutMessages = some s →
        s = []) ∧
      (1 ≤ st1.mem.room →
        (LLVMLinkModules L Dest Src Mode OutMessages st1).2.mem.message OutMessages = some [])) := by
  have hf1 := flag_after L Dest Src Mode OutMessages st1
  have hf2 := flag_after L Dest Src Mode OutMessages st2
  simp only [linked, sink, h, ne_eq, not_false_eq_true, if_true] at hf1 hf2
  refine ⟨?_, ?_, ?_, ?_, ?_⟩
  · rw [hf1, hf2, hf]
  · intro s1 s2 h1 h2
    rw [message_after_eq L Dest Src Mode OutMessages st1 h s1 h1,
      message_after_eq L Dest Src Mode OutMessages st2 h s2 h2, ht]
  · intro hh hroom
    by_cases hr : (cutAtNul (L.LinkModules st1.world (unwrap Dest) (unwrap Src) Mode (some [])).errorMsg).length + 1 ≤ st1.mem.room
    · have hr2 : (cutAtNul (L.LinkModules st2.world (unwrap Dest) (unwrap Src) Mode (some [])).errorMsg).length + 1 ≤ st2.mem.room := by
        rw [← ht, ← hroom]; exact hr
      rw [load_after_of_room L Dest Src Mode OutMessages st1 h hr,
        load_after_of_room L Dest Src Mode OutMessages st2 h hr2,
        message_after_of_room L Dest Src Mode OutMessages st1 h hr,
        message_after_of_room L Dest Src Mode OutMessages st2 h hr2, hh, ht]
      exact ⟨rfl, rfl⟩
    · have hr2 : ¬ (cutAtNul (L.LinkModules st2.world (unwrap Dest) (unwrap Src) Mode (some [])).errorMsg).length + 1 ≤ st2.mem.room := by
        rw [← ht, ← hroom]; exact hr
      rw [load_after_of_no_room L Dest Src Mode OutMessages st1 h hr,
        load_after_of_no_room L Dest Src Mode OutMessages st2 h hr2,
        message_after_of_no_room L Dest Src Mode OutMessages st1 h hr,
        message_after_of_no_room L Dest Src Mode OutMessages st2 h hr2]
      exact ⟨rfl, rfl⟩
  · simp [LLVMLinkModules, h]
  · intro he
    constructor
    · intro s hs
      rw [message_after_eq L Dest Src Mode OutMessages st1 h s hs, he]
      rfl
    · intro hroom
      have hr : (cutAtNul (L.LinkModules st1.world (unwrap Dest) (unwrap Src) Mode (some [])).errorMsg).length + 1 ≤ st1.mem.room := by
        rw [he]; simpa [cutAtNul] using hroom
      rw [message_after_of_room L Dest Src Mode OutMessages st1 h hr, he]
      rfl

/-- Witness for C9: the same failing linker, once with a null pointer in the cell, once with a
stale pointer in the cell, the heap empty with three bytes of room both times: flag 1, pointer 1
and the message "no" both times. -/
theorem LLVMLinkModules_prior_cell_irrelevant_witness :
    ((LLVMLinkModules (sayLinker true [110, 111]) ⟨1⟩ ⟨2⟩ 0 8 (callerState 0 [] 3)).1 = 1 ∧
      (LLVMLinkModules (sayLinker true [110, 111]) ⟨1⟩ ⟨2⟩ 0 8 (callerState 0 [] 3)).2.mem.message 8 =
        some [110, 111] ∧
      (LLVMLinkModules (sayLinker true [110, 111]) ⟨1⟩ ⟨2⟩ 0 8 (callerState 77 [] 3)).2.mem.message 8 =
        some [110, 111]) ∧
    ((LLVMLinkModules (sayLinker true [110, 111]) ⟨1⟩ ⟨2⟩ 0 8 (callerState 0 [] 3)).1 =
      (LLVMLinkModules (sayLinker true [110, 111]) ⟨1⟩ ⟨2⟩ 0 8 (callerState 77 [] 3)).1) ∧
    ((LLVMLinkModules (sayLinker true [110, 111]) ⟨1⟩ ⟨2⟩ 0 8 (callerState 0 [] 3)).2.mem.load 8 =
        (LLVMLinkModules (sayLinker true [110, 111]) ⟨1⟩ ⟨2⟩ 0 8 (callerState 77 [] 3)).2.mem.load 8 ∧
      (LLVMLinkModules (sayLinker true [110, 111]) ⟨1⟩ ⟨2⟩ 0 8 (callerState 0 [] 3)).2.mem.message 8 =
        (LLVMLinkModules (sayLinker true [110, 111]) ⟨1⟩ ⟨2⟩ 0 8 (callerState 77 [] 3)).2.mem.message 8) :=
  ⟨by decide,
    (LLVMLinkModules_prior_cell_irrelevant (sayLinker true [110, 111]) ⟨1⟩ ⟨2⟩ 0 8
      (callerState 0 [] 3) (callerState 77 [] 3) (by decide) rfl rfl).1,
    (LLVMLinkModules_prior_cell_irrelevant (sayLinker true [110, 111]) ⟨1⟩ ⟨2⟩ 0 8
      (callerState 0 [] 3) (callerState 77 [] 3) (by decide) rfl rfl).2.2.1 rfl rfl⟩

/-- C2, counterexample: the linker fails and leaves the bytes "a", NUL, "b" in the buffer; with
room on the heap, the string found through the non-null `OutMessages` is "a", not the text the
linker produced. -/
theorem LLVMLinkModules_message_not_whole_text :
    (8 : Nat) ≠ 0 ∧
    ((sayLinker true [97, 0, 98]).LinkModules () (unwrap ⟨1⟩) (unwrap ⟨2⟩) 0 (some [])).errorMsg =
      [97, 0, 98] ∧
    (LLVMLinkModules (sayLinker true [97, 0, 98]) ⟨1⟩ ⟨2⟩ 0 8
      (callerState 0 [] 16)).2.mem.message 8 = some [97] ∧
    (LLVMLinkModules (sayLinker true [97, 0, 98]) ⟨1⟩ ⟨2⟩ 0 8
      (callerState 0 [] 16)).2.mem.message 8 ≠
      some ((sayLinker true [97, 0, 98]).LinkModules () (unwrap ⟨1⟩) (unwrap ⟨2⟩) 0
        (some [])).errorMsg := by
  decide

/-- C2, amended: with a non-null `OutMessages`, when the text the linker left in the buffer has no
NUL character, the string written, which is there whenever the pointer stored is non-null, is
that text, whatever the status; and it is written whenever the heap has room for the text and
its terminator. -/
theorem LLVMLinkModules_written_message_copy_of_text {W : Type} (L : Linker W)
    (Dest Src : LLVMModuleRef) (Mode : LLVMLinkerMode) (OutMessages : Nat) (st : State W)
    (h : OutMessages ≠ 0)
    (hn : (0 : CChar) ∉ (L.LinkModules st.world (unwrap Dest) (unwrap Src) Mode (some [])).errorMsg) :
    (∀ p : Nat,
      (LLVMLinkModules L Dest Src Mode OutMessages st).2.mem.load OutMessages = some p → p ≠ 0 →
      (LLVMLinkModules L Dest Src Mode OutMessages st).2.mem.message OutMessages =
        some (L.LinkModules st.world (unwrap Dest) (unwrap Src) Mode (some [])).errorMsg) ∧
    ((L.LinkModules st.world (unwrap Dest) (unwrap Src) Mode (some [])).errorMsg.length + 1 ≤ st.mem.room →
      (LLVMLinkModules L Dest Src Mode OutMessages st).2.mem.message OutMessages =
        some (L.LinkModules st.world (unwrap Dest) (unwrap Src) Mode (some [])).errorMsg) := by
  have hc := cutAtNul_of_not_mem _ hn
  constructor
  · intro p hp hne
    have hr := room_of_load_ne_null L Dest Src Mode OutMessages st h p hp hne
    rw [message_after_of_room L Dest Src Mode OutMessages st h hr, hc]
  · intro hroom
    have hr : (cutAtNul (L.LinkModules st.world (unwrap Dest) (unwrap Src) Mode (some [])).errorMsg).length + 1 ≤ st.mem.room := by
      rw [hc]; exact hroom
    rw [message_after_of_room L Dest Src Mode OutMessages st h hr, hc]

/-- Witness for C2 amended: a linker that succeeds and leaves "ok" in the buffer, three bytes of
room on the heap. -/
theorem LLVMLinkModules_written_message_copy_of_text_witness :
    ((8 : Nat) ≠ 0 ∧
      (0 : CChar) ∉ ((sayLinker false [111, 107]).LinkModules (callerState 0 [] 3).world
        (unwrap ⟨1⟩) (unwrap ⟨2⟩) 0 (some [])).errorMsg ∧
      ((sayLinker false [111, 107]).LinkModules (callerState 0 [] 3).world
        (unwrap ⟨1⟩) (unwrap ⟨2⟩) 0 (some [])).errorMsg.length + 1 ≤
        (callerState 0 [] 3).mem.room) ∧
    (LLVMLinkModules (sayLinker false [111, 107]) ⟨1⟩ ⟨2⟩ 0 8
      (callerState 0 [] 3)).2.mem.message 8 =
      some ((sayLinker false [111, 107]).LinkModules (callerState 0 [] 3).world
        (unwrap ⟨1⟩) (unwrap ⟨2⟩) 0 (some [])).errorMsg :=
  ⟨by decide, (LLVMLinkModules_written_message_copy_of_text (sayLinker false [111, 107]) ⟨1⟩ ⟨2⟩
    0 8 (callerState 0 [] 3) (by decide) (by decide)).2 (by decide)⟩

/-- C5: for a linker that leaves its buffer untouched when it reports success, with a non-null
`OutMessages` and a zero flag returned, the string written, which is there whenever the pointer
stored is non-null, is the empty string; and it is written as soon as the heap has one byte of
room. -/
theorem LLVMLinkModules_success_message_empty {W : Type} (L : Linker W)
    (Dest Src : LLVMModuleRef) (Mode : LLVMLinkerMode) (OutMessages : Nat) (st : State W)
    (hL : L.SilentOnSuccess)
    (h : OutMessages ≠ 0)
    (hs : (LLVMLinkModules L Dest Src Mode OutMessages st).1 = 0) :
    (∀ p : Nat,
      (LLVMLinkModules L Dest Src Mode OutMessages st).2.mem.load OutMessages = some p → p ≠ 0 →
      (LLVMLinkModules L Dest Src Mode OutMessages st).2.mem.message OutMessages = some []) ∧
    (1 ≤ st.mem.room →
      (LLVMLinkModules L Dest Src Mode OutMessages st).2.mem.message OutMessages = some []) := by
  have hfl := flag_after L Dest Src Mode OutMessages st
  simp only [linked, sink, h, ne_eq, not_false_eq_true, if_true] at hfl
  have hfalse : (L.LinkModules st.world (unwrap Dest) (unwrap Src) Mode (some [])).failed = false := by
    rw [hfl] at hs
    by_contra hc
    simp only [Bool.not_eq_false] at hc
    simp [hc] at hs
  have he : (L.LinkModules st.world (unwrap Dest) (unwrap Src) Mode (some [])).errorMsg = [] := hL _ _ _ _ _ hfalse
  constructor
  · intro p hp hne
    have hr := room_of_load_ne_null L Dest Src Mode OutMessages st h p hp hne
    rw [message_after_of_room L Dest Src Mode OutMessages st h hr, he]
    rfl
  · intro hroom
    have hr : (cutAtNul (L.LinkModules st.world (unwrap Dest) (unwrap Src) Mode (some [])).errorMsg).length + 1 ≤ st.mem.room := by
      rw [he]; simpa [cutAtNul] using hroom
    rw [message_after_of_room L Dest Src Mode OutMessages st h hr, he]
    rfl

/-- Witness for C5: a linker that fails, with the text "no", only on a null source; called with
the source at address 2 and one byte of room it succeeds, and the caller finds the empty
string in a new block. -/
theorem LLVMLinkModules_success_message_empty_witness :
    ((8 : Nat) ≠ 0 ∧
      (LLVMLinkModules (pickyLinker [110, 111]) ⟨1⟩ ⟨2⟩ 0 8 (callerState 77 [] 1)).1 = 0 ∧
      (LLVMLinkModules (pickyLinker [110, 111]) ⟨1⟩ ⟨2⟩ 0 8
        (callerState 77 [] 1)).2.mem.load 8 = some 1 ∧
      (LLVMLinkModules (pickyLinker [110, 111]) ⟨1⟩ ⟨2⟩ 0 8
        (callerState 77 [] 1)).2.mem.heap = [[0]] ∧
      (LLVMLinkModules (pickyLinker [110, 111]) ⟨1⟩ ⟨0⟩ 0 8
        (callerState 77 [] 3)).2.mem.message 8 = some [110, 111]) ∧
    (LLVMLinkModules (pickyLinker [110, 111]) ⟨1⟩ ⟨2⟩ 0 8
      (callerState 77 [] 1)).2.mem.message 8 = some [] :=
  ⟨by decide, (LLVMLinkModules_success_message_empty (pickyLinker [110, 111]) ⟨1⟩ ⟨2⟩ 0 8
    (callerState 77 [] 1) (pickyLinker_silentOnSuccess [110, 111]) (by decide) (by decide)).2
    (by decide)⟩

/-- C6, counterexample: the linker fails with the text "no" at hand. With a null `OutMessages`
the call returns 1, the linker was passed a null buffer, and the memory of the caller is what
it was, with no block allocated and nothing behind the cell at address 8. With a non-null
`OutMessages` and no room on the heap, the call returns 1 and the cell holds the null pointer:
no copy either. With room and the text "a", NUL, "b", the caller finds "a". -/
theorem LLVMLinkModules_failure_without_message :
    ((sayLinker true [110, 111]).LinkModules () (unwrap ⟨1⟩) (unwrap ⟨2⟩) 0 none).failed = true ∧
    (LLVMLinkModules (sayLinker true [110, 111]) ⟨1⟩ ⟨2⟩ 0 0 (callerState 0 [] 16)).1 = 1 ∧
    (LLVMLinkModules (sayLinker true [110, 111]) ⟨1⟩ ⟨2⟩ 0 0 (callerState 0 [] 16)).2.calls =
      [⟨⟨1⟩, ⟨2⟩, 0, none⟩] ∧
    (LLVMLinkModules (sayLinker true [110, 111]) ⟨1⟩ ⟨2⟩ 0 0 (callerState 0 [] 16)).2.mem =
      (callerState 0 [] 16).mem ∧
    (LLVMLinkModules (sayLinker true [110, 111]) ⟨1⟩ ⟨2⟩ 0 0
      (callerState 0 [] 16)).2.mem.heap = [] ∧
    (LLVMLinkModules (sayLinker true [110, 111]) ⟨1⟩ ⟨2⟩ 0 0
      (callerState 0 [] 16)).2.mem.message 8 = none ∧
    ((LLVMLinkModules (sayLinker true [110, 111]) ⟨1⟩ ⟨2⟩ 0 8 (callerState 77 [] 0)).1 = 1 ∧
      (LLVMLinkModules (sayLinker true [110, 111]) ⟨1⟩ ⟨2⟩ 0 8
        (callerState 77 [] 0)).2.mem.load 8 = some 0 ∧
      (LLVMLinkModules (sayLinker true [110, 111]) ⟨1⟩ ⟨2⟩ 0 8
        (callerState 77 [] 0)).2.mem.message 8 = none) ∧
    (LLVMLinkModules (sayLinker true [97, 0, 98]) ⟨1⟩ ⟨2⟩ 0 8
      (callerState 0 [] 16)).2.mem.message 8 = some [97] := by
  decide

/-- C6, amended: when the linker reports failure and `OutMessages` is non-null, the call returns a
non-zero flag; if the heap has room for the message and its terminator, the caller finds through
`OutMessages` the text the linker left in the buffer, up to its first NUL; and whenever the
pointer stored is non-null, that is the string it refers to. -/
theorem LLVMLinkModules_failure_message_of_room {W : Type} (L : Linker W)
    (Dest Src : LLVMModuleRef) (Mode : LLVMLinkerMode) (OutMessages : Nat) (st : State W)
    (h : OutMessages ≠ 0)
    (hf : (L.LinkModules st.world (unwrap Dest) (unwrap Src) Mode (some [])).failed = true) :
    (LLVMLinkModules L Dest Src Mode OutMessages st).1 ≠ 0 ∧
    ((cutAtNul (L.LinkModules st.world (unwrap Dest) (unwrap Src) Mode (some [])).errorMsg).length + 1 ≤ st.mem.room →
      (LLVMLinkModules L Dest Src Mode OutMessages st).2.mem.message OutMessages =
        some (cutAtNul (L.LinkModules st.world (unwrap Dest) (unwrap Src) Mode (some [])).errorMsg)) ∧
    (∀ p : Nat,
      (LLVMLinkModules L Dest Src Mode OutMessages st).2.mem.load OutMessages = some p → p ≠ 0 →
      (LLVMLinkModules L Dest Src Mode OutMessages st).2.mem.message OutMessages =
        some (cutAtNul (L.LinkModules st.world (unwrap Dest) (unwrap Src) Mode (some [])).errorMsg)) := by
  have hfl := flag_after L Dest Src Mode OutMessages st
  simp only [linked, sink, h, ne_eq, not_false_eq_true, if_true] at hfl
  refine ⟨?_, ?_, ?_⟩
  · rw [hfl, hf]
    decide
  · intro hr
    exact message_after_of_room L Dest Src Mode OutMessages st h hr
  · intro p hp hne
    exact message_after_of_room L Dest Src Mode OutMessages st h
      (room_of_load_ne_null L Dest Src Mode OutMessages st h p hp hne)

/-- Witness for C6 amended: a failing linker that says "no", the cell at address 8, three bytes of
room: flag 1 and the message "no". -/
theorem LLVMLinkModules_failure_message_of_room_witness :
    ((8 : Nat) ≠ 0 ∧
      ((sayLinker true [110, 111]).LinkModules (callerState 0 [] 3).world (unwrap ⟨1⟩)
        (unwrap ⟨2⟩) 0 (some [])).failed = true ∧
      (LLVMLinkModules (sayLinker true [110, 111]) ⟨1⟩ ⟨2⟩ 0 8 (callerState 0 [] 3)).1 = 1 ∧
      (LLVMLinkModules (sayLinker true [110, 111]) ⟨1⟩ ⟨2⟩ 0 8
        (callerState 0 [] 3)).2.mem.message 8 = some [110, 111]) ∧
    (LLVMLinkModules (sayLinker true [110, 111]) ⟨1⟩ ⟨2⟩ 0 8 (callerState 0 [] 3)).1 ≠ 0 ∧
    (LLVMLinkModules (sayLinker true [110, 111]) ⟨1⟩ ⟨2⟩ 0 8
      (callerState 0 [] 3)).2.mem.message 8 =
      some (cutAtNul ((sayLinker true [110, 111]).LinkModules (callerState 0 [] 3).world
        (unwrap ⟨1⟩) (unwrap ⟨2⟩) 0 (some [])).errorMsg) :=
  ⟨by decide,
    (LLVMLinkModules_failure_message_of_room (sayLinker true [110, 111]) ⟨1⟩ ⟨2⟩ 0 8
      (callerState 0 [] 3) (by decide) rfl).1,
    (LLVMLinkModules_failure_message_of_room (sayLinker true [110, 111]) ⟨1⟩ ⟨2⟩ 0 8
      (callerState 0 [] 3) (by decide) rfl).2.1 (by decide)⟩

end LinkerBinding
